import Mathlib

/-!
Verification development for the stoq-server event-stream broker
(src/stoqserver/lib/eventstream.py).

The broker keeps three process-wide dictionaries keyed by station id:
outbound event queues (`_streams`), capacity-one reply queues (`_replies`)
and waiting-reply flags (`_waiting_reply`).  We embed the dictionaries as
functions from station ids to `Option` values, gevent queues as Lean lists
(front of the list = next element returned by `Queue.get`), and the
`gevent.event.Event` flag as a `Bool`.  Python exceptions (failed `assert`,
`KeyError`) are embedded as an `Except` result paired with the state the
dictionaries are left in.
-/

/-- Station identifier: the string `station.id` used as dictionary key. -/
abbrev StationId := String

/-- JSON-serialisable Python values that travel through the broker:
strings, booleans and dicts, which is all the event payloads in
eventstream.py are built from. -/
inductive PyVal where
  | pyStr : String → PyVal
  | pyBool : Bool → PyVal
  | pyDict : List (String × PyVal) → PyVal
deriving Repr

/-- Values held in a reply queue: either an ordinary reply payload or the
`EventStreamBrokenException` class object used as the broken sentinel. -/
inductive Answer where
  | reply : PyVal → Answer
  | brokenException : Answer
deriving Repr

/-- Python exceptions that the broker operations can raise. -/
inductive PyErr where
  | assertionError : PyErr
  | keyError : PyErr
deriving Repr, DecidableEq

/-- Four lowercase hexadecimal digits, as in a Python \u escape. -/
def hex4 (n : Nat) : String :=
  let ds := Nat.toDigits 16 n
  String.mk (List.replicate (4 - ds.length) '0' ++ ds)

/-- Escape of one character in a JSON string, following json.dumps with
its default ensure_ascii=True: printable ASCII passes through, the quote
and backslash and the usual control characters get two-character escapes,
and everything else becomes \uXXXX (with a surrogate pair above 0xFFFF). -/
def jsonEscapeChar (c : Char) : String :=
  if c = '"' then "\\\""
  else if c = '\\' then "\\\\"
  else if c = '\n' then "\\n"
  else if c = '\r' then "\\r"
  else if c = '\t' then "\\t"
  else if c.toNat = 8 then "\\b"
  else if c.toNat = 12 then "\\f"
  else if c.toNat < 0x20 ∨ 0x7e < c.toNat then
    if c.toNat < 0x10000 then "\\u" ++ hex4 c.toNat
    else
      let v := c.toNat - 0x10000
      "\\u" ++ hex4 (0xd800 + v / 0x400) ++ "\\u" ++ hex4 (0xdc00 + v % 0x400)
  else String.singleton c

/-- Escape of a whole JSON string body. -/
def jsonEscape (s : String) : String :=
  String.join (s.toList.map jsonEscapeChar)

mutual
/-- json.dumps with its default separators: strings are quoted and
escaped, booleans print as true and false, dicts print their pairs in
insertion order between braces. -/
def jsonDumps : PyVal → String
  | .pyStr s => "\"" ++ jsonEscape s ++ "\""
  | .pyBool b => if b then "true" else "false"
  | .pyDict kvs => "\x7b" ++ jsonDumpsPairs kvs ++ "\x7d"

/-- The comma-separated pair list inside a serialised dict. -/
def jsonDumpsPairs : List (String × PyVal) → String
  | [] => ""
  | [(k, v)] => "\"" ++ jsonEscape k ++ "\": " ++ jsonDumps v
  | (k, v) :: p :: rest =>
      "\"" ++ jsonEscape k ++ "\": " ++ jsonDumps v ++ ", " ++ jsonDumpsPairs (p :: rest)
end

example : jsonDumps (.pyDict []) = "\x7b\x7d" := by rfl
example : jsonDumps (.pyDict [("type", .pyStr "CLEAR_SALE")]) =
    "\x7b\"type\": \"CLEAR_SALE\"\x7d" := by rfl

/-- The process-wide state of the EventStream class: the three dictionaries
`_streams`, `_replies` and `_waiting_reply`, each keyed by station id.
A queue is the list of its elements, front first; `none` means the key is
absent from the dictionary. -/
structure BrokerState where
  streams : StationId → Option (List PyVal)
  replies : StationId → Option (List Answer)
  waiting : StationId → Option Bool

/-- The state before any station ever connected: all three dictionaries
are empty. -/
def emptyBroker : BrokerState :=
  { streams := fun _ => none, replies := fun _ => none, waiting := fun _ => none }

namespace EventStream

/-- EventStream.put (eventstream.py lines 71-75): `assert station.id in
cls._streams`, then append `data` to the stream queue of the station.
A failed assert raises and leaves the dictionaries untouched. -/
def put (st : BrokerState) (sid : StationId) (data : PyVal) :
    Except PyErr Unit × BrokerState :=
  match st.streams sid with
  | none => (.error .assertionError, st)
  | some q =>
      (.ok (), { st with streams := Function.update st.streams sid (some (q ++ [data])) })

/-- EventStream.put_all (lines 77-81): append `data` to every queue in
`cls._streams.values()`. -/
def put_all (st : BrokerState) (data : PyVal) : BrokerState :=
  { st with streams := fun s => (st.streams s).map (fun q => q ++ [data]) }

/-- The dict put on the stream by EventStream.ask_question (lines 87-90). -/
def askQuestionEvent (question : PyVal) : PyVal :=
  .pyDict [("type", .pyStr "TEF_ASK_QUESTION"), ("data", question)]

/-- EventStream.ask_question, first half (lines 83-94): put the
TEF_ASK_QUESTION event on the stream via `put`, set the waiting-reply flag,
look up the reply queue, and stop at the suspension point
`cls._replies[station.id].get()`.  An `.ok` result means the call is now
blocked on the reply queue; a missing dictionary key raises KeyError. -/
def ask_question_start (st : BrokerState) (sid : StationId) (question : PyVal) :
    Except PyErr Unit × BrokerState :=
  match put st sid (askQuestionEvent question) with
  | (.error e, st1) => (.error e, st1)
  | (.ok _, st1) =>
      match st1.waiting sid with
      | none => (.error .keyError, st1)
      | some _ =>
          let st2 := { st1 with waiting := Function.update st1.waiting sid (some true) }
          match st2.replies sid with
          | none => (.error .keyError, st2)
          | some _ => (.ok (), st2)

/-- EventStream.ask_question, second half (lines 94-97): the blocked
`cls._replies[station.id].get()` returns once the reply queue is
non-empty; the call takes the front element, clears the waiting-reply
flag, and returns the reply.  `none` means the call is still blocked. -/
def ask_question_resume (st : BrokerState) (sid : StationId) :
    Option (Answer × BrokerState) :=
  match st.replies sid, st.waiting sid with
  | some (r :: rest), some _ =>
      let st1 := { st with replies := Function.update st.replies sid (some rest) }
      let st2 := { st1 with waiting := Function.update st1.waiting sid (some false) }
      some (r, st2)
  | _, _ => none

/-- EventStream.put_reply (lines 99-106): `assert cls._replies[station_id].empty()`,
`assert cls._waiting_reply[station_id].is_set()`, then put the reply on the
reply queue.  A failed assert or a missing key raises and leaves the
dictionaries untouched. -/
def put_reply (st : BrokerState) (sid : StationId) (reply : PyVal) :
    Except PyErr Unit × BrokerState :=
  match st.replies sid with
  | none => (.error .keyError, st)
  | some rq =>
      match rq with
      | _ :: _ => (.error .assertionError, st)
      | [] =>
          match st.waiting sid with
          | none => (.error .keyError, st)
          | some w =>
              if w then
                (.ok (), { st with
                  replies := Function.update st.replies sid (some [Answer.reply reply]) })
              else (.error .assertionError, st)

/-- One stream frame as yielded by EventStream._loop (line 111):
the text data-colon-space, the json.dumps of the queue element, and two
newlines. -/
def frame (data : PyVal) : String :=
  "data: " ++ jsonDumps data ++ "\n\n"

/-- One iteration of EventStream._loop (lines 108-112): take the next
element from the front of the stream queue and yield its frame; `none`
means `stream.get()` blocks on the empty queue. -/
def loopStep (q : List PyVal) : Option (String × List PyVal) :=
  match q with
  | [] => none
  | d :: rest => some (frame d, rest)

/-- The frames EventStream._loop yields while consuming the given queue
elements, in order. -/
def loopFrames (items : List PyVal) : List String :=
  items.map frame

/-- The registry step of EventStream.get (lines 115, 118, 121, 122):
install a fresh empty queue as the stream queue of the station, replacing
any previous one, and `setdefault` the reply queue and the waiting-reply
flag, creating them empty and cleared only when absent. -/
def register (st : BrokerState) (sid : StationId) : BrokerState :=
  let st1 := { st with streams := Function.update st.streams sid (some []) }
  let st2 := { st1 with
    replies := Function.update st1.replies sid (some ((st1.replies sid).getD [])) }
  { st2 with
    waiting := Function.update st2.waiting sid (some ((st2.waiting sid).getD false)) }

/-- The reconciliation step of EventStream.get (lines 124-129): when the
waiting-reply flag of the station is set, put the
EventStreamBrokenException sentinel on the reply queue and clear the flag.
The reply queue has capacity one, so the put blocks when the queue is
already full; `none` models that blocked handler. -/
def reconcile (st : BrokerState) (sid : StationId) : Option BrokerState :=
  if (st.waiting sid).getD false then
    match st.replies sid with
    | some [] =>
        some { st with
          replies := Function.update st.replies sid (some [Answer.brokenException]),
          waiting := Function.update st.waiting sid (some false) }
    | _ => none
  else some st

/-- The keepalive element EventStream.get puts on the fresh queue
(line 132): the json.dumps of the empty dict, put as a Python string, so
the queue element is the two-character string of an open and a close
brace. -/
def keepaliveItem : PyVal :=
  .pyStr (jsonDumps (.pyDict []))

/-- The TEF warning event of EventStream.get (lines 138-140). -/
def tefWarningEvent : PyVal :=
  .pyDict [("type", .pyStr "TEF_WARNING_MESSAGE"),
    ("message", .pyStr "Última transação TEF não foi efetuada. Favor reter o Cupom.")]

/-- The clear-sale event of EventStream.get (line 141). -/
def clearSaleEvent : PyVal :=
  .pyDict [("type", .pyStr "CLEAR_SALE")]

/-- The keepalive put of EventStream.get (line 132): append the keepalive
element to the stream queue of the station. -/
def seedKeepalive (st : BrokerState) (sid : StationId) : BrokerState :=
  { st with
    streams := Function.update st.streams sid
      (some (((st.streams sid).getD []) ++ [keepaliveItem])) }

/-- The pending-transaction step of EventStream.get (lines 136-141):
`has_canceled = TefCheckPendingEvent.send()` is the given list of
subscriber-result pairs; when `has_canceled and has_canceled[0][1]` holds,
that is, the list is non-empty and the result of its FIRST pair is true,
put the TEF warning event and then the clear-sale event on the stream of
the station. -/
def hookPush (st : BrokerState) (sid : StationId)
    (hookResults : List (String × Bool)) : Option BrokerState :=
  match hookResults with
  | (_, true) :: _ =>
      match put st sid tefWarningEvent with
      | (.ok _, a) =>
          match put a sid clearSaleEvent with
          | (.ok _, b) => some b
          | (.error _, _) => none
      | (.error _, _) => none
  | _ => some st

/-- EventStream.get (lines 114-142), from the token having resolved to the
station, to the Response wrapping `_loop` being returned: register the
fresh queue, reconcile a stale waiting-reply flag, seed the keepalive, run
the pending-transaction hook.  `none` means the handler raised or blocked
before returning the streaming response. -/
def get (st : BrokerState) (sid : StationId)
    (hookResults : List (String × Bool)) : Option BrokerState :=
  (reconcile (register st sid) sid).bind
    (fun st4 => hookPush (seedKeepalive st4 sid) sid hookResults)

/-- The Python truth value of `has_canceled and has_canceled[0][1]` on
line 137: the hook result list is non-empty and the result of its first
pair is true. -/
def firstResultTrue (hookResults : List (String × Bool)) : Bool :=
  match hookResults with
  | (_, true) :: _ => true
  | _ => false

/-- A sequence of EventStream.put calls for the same station, stopping at
the first raised exception. -/
def putMany (st : BrokerState) (sid : StationId) (events : List PyVal) :
    Except PyErr Unit × BrokerState :=
  match events with
  | [] => (.ok (), st)
  | e :: rest =>
      match put st sid e with
      | (.ok _, st1) => putMany st1 sid rest
      | (.error err, st1) => (.error err, st1)

/-- A full question round trip: ask_question runs to its suspension point,
put_reply delivers the answer, and the blocked ask_question resumes and
returns.  `none` when any of the three steps raises or stays blocked. -/
def roundTrip (st : BrokerState) (sid : StationId) (question answer : PyVal) :
    Option (Answer × BrokerState) :=
  match ask_question_start st sid question with
  | (.ok _, st1) =>
      match put_reply st1 sid answer with
      | (.ok _, st2) => ask_question_resume st2 sid
      | (.error _, _) => none
  | (.error _, _) => none

/-- A sample question payload, used for concrete evaluations. -/
def demoQuestion : PyVal := .pyDict [("type", .pyStr "CONFIRM")]

/-- A sample reply payload, used for concrete evaluations. -/
def demoAnswer : PyVal := .pyDict [("ok", .pyBool true)]

/-- A sample event payload, used for concrete evaluations. -/
def demoEvent : PyVal := .pyDict [("type", .pyStr "DEMO")]

end EventStream

namespace EventStream

theorem ask_start_eq {st : BrokerState} {sid : StationId} {qs : List PyVal} {rq : List Answer} {w : Bool} (question : PyVal)
    (hs : st.streams sid = some qs) (hr : st.replies sid = some rq)
    (hw : st.waiting sid = some w) :
    ask_question_start st sid question =
      (.ok (), { st with
        streams := Function.update st.streams sid (some (qs ++ [askQuestionEvent question])),
        waiting := Function.update st.waiting sid (some true) }) := by
  simp [ask_question_start, put, hs, hr, hw]

theorem put_reply_ok {st : BrokerState} {sid : StationId} (a : PyVal)
    (hr : st.replies sid = some []) (hw : st.waiting sid = some true) :
    put_reply st sid a =
      (.ok (), { st with replies := Function.update st.replies sid (some [Answer.reply a]) }) := by
  simp [put_reply, hr, hw]

theorem resume_eq {st : BrokerState} {sid : StationId} {r : Answer} {rest : List Answer} {w : Bool}
    (hr : st.replies sid = some (r :: rest)) (hw : st.waiting sid = some w) :
    ask_question_resume st sid =
      some (r, { st with
        replies := Function.update st.replies sid (some rest),
        waiting := Function.update st.waiting sid (some false) }) := by
  simp [ask_question_resume, hr, hw]

theorem roundTrip_eq {st : BrokerState} {sid : StationId} {qs : List PyVal} {w : Bool}
    (question answer : PyVal) (hs : st.streams sid = some qs)
    (hr : st.replies sid = some []) (hw : st.waiting sid = some w) :
    roundTrip st sid question answer = some (Answer.reply answer, { st with
      streams := Function.update st.streams sid (some (qs ++ [askQuestionEvent question])),
      replies := Function.update (Function.update st.replies sid (some [Answer.reply answer])) sid (some []),
      waiting := Function.update (Function.update st.waiting sid (some true)) sid (some false) }) := by
  simp [roundTrip, ask_question_start, put, put_reply, ask_question_resume, hs, hr, hw]

example : (get emptyBroker "S1" []).map (fun s => s.streams "S1") =
    some (some [keepaliveItem]) := by rfl

example : (get emptyBroker "S1" [("a", false), ("b", true)]).map (fun s => s.streams "S1") =
    some (some [keepaliveItem]) := by rfl

example : (get emptyBroker "S1" [("a", true)]).map (fun s => s.streams "S1") =
    some (some [keepaliveItem, tefWarningEvent, clearSaleEvent]) := by rfl

example : (get emptyBroker "S1" []).map (fun s => (s.replies "S1", s.waiting "S1")) =
    some (some [], some false) := by rfl

theorem put_ok {st : BrokerState} {sid : StationId} {q : List PyVal} (data : PyVal)
    (h : st.streams sid = some q) :
    put st sid data =
      (.ok (), { st with streams := Function.update st.streams sid (some (q ++ [data])) }) := by
  simp [put, h]

theorem put_err {st : BrokerState} {sid : StationId} (data : PyVal)
    (h : st.streams sid = none) :
    put st sid data = (.error .assertionError, st) := by
  simp [put, h]

theorem put_replies (st : BrokerState) (sid : StationId) (data : PyVal) :
    (put st sid data).2.replies = st.replies := by
  cases h : st.streams sid <;> simp [put, h]

theorem put_waiting (st : BrokerState) (sid : StationId) (data : PyVal) :
    (put st sid data).2.waiting = st.waiting := by
  cases h : st.streams sid <;> simp [put, h]

theorem put_streams_self {st : BrokerState} {sid : StationId} {q : List PyVal} (data : PyVal)
    (h : st.streams sid = some q) :
    (put st sid data).2.streams sid = some (q ++ [data]) := by
  simp [put, h]

theorem register_streams_self (st : BrokerState) (sid : StationId) :
    (register st sid).streams sid = some [] := by
  simp [register]

theorem register_replies_self (st : BrokerState) (sid : StationId) :
    (register st sid).replies sid = some ((st.replies sid).getD []) := by
  simp [register]

theorem register_waiting_self (st : BrokerState) (sid : StationId) :
    (register st sid).waiting sid = some ((st.waiting sid).getD false) := by
  simp [register]

theorem register_streams_other (st : BrokerState) {sid s : StationId} (h : s ≠ sid) :
    (register st sid).streams s = st.streams s := by
  simp [register, Function.update_noteq h]

theorem register_replies_other (st : BrokerState) {sid s : StationId} (h : s ≠ sid) :
    (register st sid).replies s = st.replies s := by
  simp [register, Function.update_noteq h]

theorem register_waiting_other (st : BrokerState) {sid s : StationId} (h : s ≠ sid) :
    (register st sid).waiting s = st.waiting s := by
  simp [register, Function.update_noteq h]

theorem reconcile_of_set {st : BrokerState} {sid : StationId}
    (hw : st.waiting sid = some true) (hr : st.replies sid = some []) :
    reconcile st sid = some { st with
      replies := Function.update st.replies sid (some [Answer.brokenException]),
      waiting := Function.update st.waiting sid (some false) } := by
  simp [reconcile, hw, hr]

theorem reconcile_of_clear {st : BrokerState} {sid : StationId}
    (hw : st.waiting sid = some false) :
    reconcile st sid = some st := by
  simp [reconcile, hw]

theorem reconcile_streams {st st' : BrokerState} {sid : StationId}
    (h : reconcile st sid = some st') : st'.streams = st.streams := by
  unfold reconcile at h
  split at h
  · split at h
    · cases h; rfl
    · cases h
  · cases h; rfl

theorem seedKeepalive_replies (st : BrokerState) (sid : StationId) :
    (seedKeepalive st sid).replies = st.replies := rfl

theorem seedKeepalive_waiting (st : BrokerState) (sid : StationId) :
    (seedKeepalive st sid).waiting = st.waiting := rfl

theorem hookPush_spec {st : BrokerState} {sid : StationId} {q : List PyVal}
    (hk : List (String × Bool)) (hq : st.streams sid = some q) :
    ∃ st', hookPush st sid hk = some st' ∧
      st'.streams sid =
        some (q ++ (if firstResultTrue hk then [tefWarningEvent, clearSaleEvent] else [])) ∧
      st'.replies = st.replies ∧ st'.waiting = st.waiting := by
  rcases hk with _ | ⟨⟨a, b⟩, rest⟩
  · exact ⟨st, rfl, by simp [firstResultTrue, hq], rfl, rfl⟩
  · cases b
    · exact ⟨st, rfl, by simp [firstResultTrue, hq], rfl, rfl⟩
    · have h1 := put_ok tefWarningEvent hq
      have h2 : ({ st with streams := Function.update st.streams sid (some (q ++ [tefWarningEvent])) } : BrokerState).streams sid = some (q ++ [tefWarningEvent]) := by simp
      have h2' : (put st sid tefWarningEvent).2.streams sid = some (q ++ [tefWarningEvent]) := by
        rw [h1]; simp
      have h3 := put_ok clearSaleEvent h2'
      refine ⟨(put (put st sid tefWarningEvent).2 sid clearSaleEvent).2, ?_, ?_, ?_, ?_⟩
      · show hookPush st sid ((a, true) :: rest) = _
        rw [hookPush, h1]
        simp only []
        rw [put_ok clearSaleEvent h2]
      · rw [h3]
        simp [firstResultTrue, h2']
      · rw [put_replies, put_replies]
      · rw [put_waiting, put_waiting]

theorem get_streams {st st' : BrokerState} {sid : StationId} {hk : List (String × Bool)}
    (h : get st sid hk = some st') :
    st'.streams sid = some (keepaliveItem ::
      (if firstResultTrue hk then [tefWarningEvent, clearSaleEvent] else [])) := by
  unfold get at h
  rcases hrec : reconcile (register st sid) sid with _ | st4
  · rw [hrec] at h; cases h
  · rw [hrec] at h
    simp only [Option.some_bind] at h
    have hs4 : st4.streams = (register st sid).streams := reconcile_streams hrec
    have hseed : (seedKeepalive st4 sid).streams sid = some [keepaliveItem] := by
      simp [seedKeepalive, hs4, register_streams_self]
    obtain ⟨st5, h5, hstr, _, _⟩ := hookPush_spec hk hseed
    rw [h5] at h
    cases h
    simpa using hstr

theorem get_pending {st : BrokerState} {sid : StationId} (hk : List (String × Bool))
    (hw : st.waiting sid = some true) (hr : st.replies sid = some []) :
    (get st sid hk).map (fun st' => (st'.replies sid, st'.waiting sid)) =
      some (some [Answer.brokenException], some false) := by
  have h1 : (register st sid).waiting sid = some true := by
    rw [register_waiting_self, hw]; rfl
  have h2 : (register st sid).replies sid = some [] := by
    rw [register_replies_self, hr]; rfl
  unfold get
  rw [reconcile_of_set h1 h2]
  simp only [Option.some_bind]
  have hseed : (seedKeepalive { register st sid with
      replies := Function.update (register st sid).replies sid (some [Answer.brokenException]),
      waiting := Function.update (register st sid).waiting sid (some false) } sid).streams sid =
      some ((((register st sid).streams sid).getD []) ++ [keepaliveItem]) := by
    simp [seedKeepalive]
  obtain ⟨st5, h5, _, hrep, hwait⟩ := hookPush_spec hk hseed
  rw [h5]
  simp [hrep, hwait, seedKeepalive]

theorem putMany_spec {st : BrokerState} {sid : StationId} {q : List PyVal}
    (es : List PyVal) (h : st.streams sid = some q) :
    (putMany st sid es).1 = .ok () ∧
      (putMany st sid es).2.streams sid = some (q ++ es) := by
  induction es generalizing st q with
  | nil => simp [putMany, h]
  | cons e rest ih =>
      have h1 := put_ok e h
      rw [putMany, h1]
      simp only []
      have hres := @ih { st with streams := Function.update st.streams sid (some (q ++ [e])) } (q ++ [e]) (by simp)
      simpa [List.append_assoc] using hres

end EventStream


open EventStream

/-- C9: push to a station with no currently registered stream fails the
call immediately and loudly (the assert on line 74 raises) and leaves the
dictionaries untouched; push to a registered station appends the event to
the current queue of that station. -/
theorem c9_theorem (st : BrokerState) (sid : StationId) (e : PyVal) :
    (st.streams sid = none → put st sid e = (.error .assertionError, st)) ∧
    (∀ q, st.streams sid = some q → put st sid e =
      (.ok (), { st with streams := Function.update st.streams sid (some (q ++ [e])) })) :=
  ⟨fun h => put_err e h, fun _ h => put_ok e h⟩

/-- C9 witness: on the empty broker the push fails loudly and changes
nothing; after a registration it appends the event to the fresh queue. -/
theorem c9_witness :
    (put emptyBroker "S1" demoEvent = (.error .assertionError, emptyBroker)) ∧
    (put (register emptyBroker "S1") "S1" demoEvent =
      (.ok (), { register emptyBroker "S1" with streams := Function.update (register emptyBroker "S1").streams "S1" (some ([] ++ [demoEvent])) })) :=
  ⟨(c9_theorem emptyBroker "S1" demoEvent).1 rfl,
   (c9_theorem (register emptyBroker "S1") "S1" demoEvent).2 [] rfl⟩

/-- C10: ask_question on a station with no currently registered stream
fails on the initial put, before the waiting-reply flag is touched, so
the dictionaries, in particular the flag and the reply queue, are exactly
as they were before the call. -/
theorem c10_theorem (st : BrokerState) (sid : StationId) (question : PyVal)
    (h : st.streams sid = none) :
    ask_question_start st sid question = (.error .assertionError, st) := by
  rw [ask_question_start, put_err _ h]

/-- C10 witness: asking a question on the empty broker fails with the
assertion error and returns the state unchanged. -/
theorem c10_witness :
    ask_question_start emptyBroker "S1" demoQuestion = (.error .assertionError, emptyBroker) :=
  c10_theorem emptyBroker "S1" demoQuestion rfl

/-- C8: put_all appends the event to the queue of every station registered
at call time, leaves unregistered stations unregistered, leaves every
reply queue and waiting-reply flag unchanged, and a station registered
only afterward starts from a fresh empty queue without the event. -/
theorem c8_theorem (st : BrokerState) (e : PyVal) :
    (∀ s q, st.streams s = some q → (put_all st e).streams s = some (q ++ [e])) ∧
    (∀ s, st.streams s = none → (put_all st e).streams s = none) ∧
    ((put_all st e).replies = st.replies) ∧
    ((put_all st e).waiting = st.waiting) ∧
    (∀ s, (register (put_all st e) s).streams s = some []) := by
  refine ⟨?_, ?_, rfl, rfl, fun s => register_streams_self _ s⟩
  · intro s q h
    simp [put_all, h]
  · intro s h
    simp [put_all, h]

/-- C8 witness: broadcasting on a broker with S1 registered appends the
event to the S1 queue, and S2, unregistered at call time, stays
unregistered. -/
theorem c8_witness :
    ((put_all (register emptyBroker "S1") demoEvent).streams "S1" = some ([] ++ [demoEvent])) ∧
    ((put_all (register emptyBroker "S1") demoEvent).streams "S2" = none) :=
  ⟨(c8_theorem (register emptyBroker "S1") demoEvent).1 "S1" [] rfl,
   (c8_theorem (register emptyBroker "S1") demoEvent).2.1 "S2" rfl⟩

/-- C7: registration always installs a fresh empty queue as the current
stream queue of the station, while the reply queue and the waiting-reply
flag are created only when absent and keep their previous contents
otherwise. -/
theorem c7_theorem (st : BrokerState) (sid : StationId) :
    ((register st sid).streams sid = some []) ∧
    (∀ rq, st.replies sid = some rq → (register st sid).replies sid = some rq) ∧
    (st.replies sid = none → (register st sid).replies sid = some []) ∧
    (∀ b, st.waiting sid = some b → (register st sid).waiting sid = some b) ∧
    (st.waiting sid = none → (register st sid).waiting sid = some false) := by
  refine ⟨register_streams_self st sid, ?_, ?_, ?_, ?_⟩
  · intro rq h
    rw [register_replies_self, h]
    rfl
  · intro h
    rw [register_replies_self, h]
    rfl
  · intro b h
    rw [register_waiting_self, h]
    rfl
  · intro h
    rw [register_waiting_self, h]
    rfl

/-- C7 witness: re-registering S1 while a question is outstanding replaces
the queue with a fresh empty one but keeps the set waiting-reply flag, and
a first registration of S2 creates an empty reply queue. -/
theorem c7_witness :
    ((register (ask_question_start (register emptyBroker "S1") "S1" demoQuestion).2 "S1").streams "S1" = some []) ∧
    ((register (ask_question_start (register emptyBroker "S1") "S1" demoQuestion).2 "S1").waiting "S1" = some true) ∧
    ((register emptyBroker "S2").replies "S2" = some []) :=
  ⟨(c7_theorem (ask_question_start (register emptyBroker "S1") "S1" demoQuestion).2 "S1").1,
   (c7_theorem (ask_question_start (register emptyBroker "S1") "S1" demoQuestion).2 "S1").2.2.2.1 true rfl,
   (c7_theorem emptyBroker "S2").2.2.1 rfl⟩

/-- C6: after a registration followed by one push the queue holds exactly
that event and the serve loop yields it next; in general a sequence of
pushes appends in order, so the serve loop delivers the events of one
queue in push order (FIFO). -/
theorem c6_theorem (st : BrokerState) (sid : StationId) (e : PyVal) (es : List PyVal)
    (q : List PyVal) (h : st.streams sid = some q) :
    ((put (register st sid) sid e).2.streams sid = some [e]) ∧
    (loopStep [e] = some (frame e, [])) ∧
    ((putMany st sid es).1 = .ok ()) ∧
    ((putMany st sid es).2.streams sid = some (q ++ es)) ∧
    (loopFrames (q ++ es) = loopFrames q ++ es.map frame) := by
  refine ⟨?_, rfl, (putMany_spec es h).1, (putMany_spec es h).2, by simp [loopFrames]⟩
  rw [put_ok e (register_streams_self st sid)]
  simp

/-- C6 witness: on a broker with S1 registered, pushing two events leaves
the queue holding both in push order. -/
theorem c6_witness :
    ((put (register (register emptyBroker "S1") "S1") "S1" demoEvent).2.streams "S1" = some [demoEvent]) ∧
    (loopStep [demoEvent] = some (frame demoEvent, [])) ∧
    ((putMany (register emptyBroker "S1") "S1" [demoEvent, clearSaleEvent]).1 = .ok ()) ∧
    ((putMany (register emptyBroker "S1") "S1" [demoEvent, clearSaleEvent]).2.streams "S1" = some ([] ++ [demoEvent, clearSaleEvent])) ∧
    (loopFrames ([] ++ [demoEvent, clearSaleEvent]) = loopFrames [] ++ [demoEvent, clearSaleEvent].map frame) :=
  c6_theorem (register emptyBroker "S1") "S1" demoEvent [demoEvent, clearSaleEvent] [] rfl

/-- C5: put_reply with the waiting-reply flag clear or the reply queue
non-empty raises an assertion error and leaves the dictionaries, in
particular the reply queue, untouched; with the flag set and the queue
empty it places the reply into the queue. -/
theorem c5_theorem (st : BrokerState) (sid : StationId) (a : PyVal) (rq : List Answer) (w : Bool)
    (hr : st.replies sid = some rq) (hw : st.waiting sid = some w) :
    (rq ≠ [] ∨ w = false → put_reply st sid a = (.error .assertionError, st)) ∧
    (rq = [] → w = true → put_reply st sid a =
      (.ok (), { st with replies := Function.update st.replies sid (some [Answer.reply a]) })) := by
  constructor
  · rintro (hne | hwf)
    · rcases rq with _ | ⟨x, rest⟩
      · exact absurd rfl hne
      · simp [put_reply, hr]
    · subst hwf
      rcases rq with _ | ⟨x, rest⟩
      · simp [put_reply, hr, hw]
      · simp [put_reply, hr]
  · rintro rfl rfl
    exact put_reply_ok a hr hw

/-- C5 witness: delivering with no outstanding question fails loudly with
the state unchanged; delivering while a question is outstanding places the
reply in the previously empty queue. -/
theorem c5_witness :
    (put_reply (register emptyBroker "S1") "S1" demoAnswer = (.error .assertionError, register emptyBroker "S1")) ∧
    (put_reply (ask_question_start (register emptyBroker "S1") "S1" demoQuestion).2 "S1" demoAnswer =
      (.ok (), { (ask_question_start (register emptyBroker "S1") "S1" demoQuestion).2 with replies := Function.update (ask_question_start (register emptyBroker "S1") "S1" demoQuestion).2.replies "S1" (some [Answer.reply demoAnswer]) })) :=
  ⟨(c5_theorem (register emptyBroker "S1") "S1" demoAnswer [] false rfl rfl).1 (Or.inr rfl),
   (c5_theorem (ask_question_start (register emptyBroker "S1") "S1" demoQuestion).2 "S1" demoAnswer [] true rfl rfl).2 rfl rfl⟩

/-- C4: ask_question pushes the TEF_ASK_QUESTION event carrying the
question onto the stream queue of the station and sets the waiting-reply
flag; once put_reply places the answer into the reply queue, the resumed
ask_question returns exactly that answer with the flag cleared and the
reply queue empty, so a subsequent full round trip for a second question
succeeds as well. -/
theorem c4_theorem (st : BrokerState) (sid : StationId)
    (question question2 answer answer2 : PyVal) (qs : List PyVal) (w : Bool)
    (hs : st.streams sid = some qs) (hr : st.replies sid = some [])
    (hw : st.waiting sid = some w) :
    ((ask_question_start st sid question).1 = .ok ()) ∧
    ((ask_question_start st sid question).2.streams sid = some (qs ++ [askQuestionEvent question])) ∧
    ((ask_question_start st sid question).2.waiting sid = some true) ∧
    ((roundTrip st sid question answer).map (fun p => (p.1, p.2.replies sid, p.2.waiting sid)) =
      some (Answer.reply answer, some [], some false)) ∧
    ((roundTrip st sid question answer).bind
      (fun p => (roundTrip p.2 sid question2 answer2).map Prod.fst) = some (Answer.reply answer2)) := by
  have hstart := ask_start_eq question hs hr hw
  have hrt := roundTrip_eq question answer hs hr hw
  refine ⟨by rw [hstart], by rw [hstart]; simp, by rw [hstart]; simp, by rw [hrt]; simp, ?_⟩
  rw [hrt]
  simp only [Option.some_bind]
  have hs2 : ({ st with streams := Function.update st.streams sid (some (qs ++ [askQuestionEvent question])), replies := Function.update (Function.update st.replies sid (some [Answer.reply answer])) sid (some []), waiting := Function.update (Function.update st.waiting sid (some true)) sid (some false) } : BrokerState).streams sid = some (qs ++ [askQuestionEvent question]) := by simp
  have hr2 : ({ st with streams := Function.update st.streams sid (some (qs ++ [askQuestionEvent question])), replies := Function.update (Function.update st.replies sid (some [Answer.reply answer])) sid (some []), waiting := Function.update (Function.update st.waiting sid (some true)) sid (some false) } : BrokerState).replies sid = some [] := by simp
  have hw2 : ({ st with streams := Function.update st.streams sid (some (qs ++ [askQuestionEvent question])), replies := Function.update (Function.update st.replies sid (some [Answer.reply answer])) sid (some []), waiting := Function.update (Function.update st.waiting sid (some true)) sid (some false) } : BrokerState).waiting sid = some false := by simp
  rw [roundTrip_eq question2 answer2 hs2 hr2 hw2]
  simp

/-- C4 witness: the round trip on a registered station returns exactly the
delivered answer, clears the flag, empties the slot, and a second round
trip succeeds. -/
theorem c4_witness :
    ((ask_question_start (register emptyBroker "S1") "S1" demoQuestion).1 = .ok ()) ∧
    ((ask_question_start (register emptyBroker "S1") "S1" demoQuestion).2.streams "S1" = some ([] ++ [askQuestionEvent demoQuestion])) ∧
    ((ask_question_start (register emptyBroker "S1") "S1" demoQuestion).2.waiting "S1" = some true) ∧
    ((roundTrip (register emptyBroker "S1") "S1" demoQuestion demoAnswer).map (fun p => (p.1, p.2.replies "S1", p.2.waiting "S1")) =
      some (Answer.reply demoAnswer, some [], some false)) ∧
    ((roundTrip (register emptyBroker "S1") "S1" demoQuestion demoAnswer).bind
      (fun p => (roundTrip p.2 "S1" demoQuestion demoEvent).map Prod.fst) = some (Answer.reply demoEvent)) :=
  c4_theorem (register emptyBroker "S1") "S1" demoQuestion demoQuestion demoAnswer demoEvent [] false rfl rfl rfl

/-- C3: when a new stream session registers for a station whose
waiting-reply flag is set and whose reply queue is empty, the session
establishment succeeds and the pending ask_question call resumes with the
EventStreamBrokenException sentinel, and the waiting-reply flag is false
immediately after. -/
theorem c3_theorem (st : BrokerState) (sid : StationId) (hk : List (String × Bool))
    (hw : st.waiting sid = some true) (hr : st.replies sid = some []) :
    ((get st sid hk).bind (fun st' => ask_question_resume st' sid)).map
      (fun p => (p.1, p.2.waiting sid)) = some (Answer.brokenException, some false) := by
  have hp := get_pending hk hw hr
  rcases hg : get st sid hk with _ | st'
  · rw [hg] at hp
    cases hp
  · rw [hg] at hp
    simp only [Option.map_some', Option.some.injEq, Prod.mk.injEq] at hp
    obtain ⟨hrep, hwait⟩ := hp
    simp only [Option.some_bind]
    rw [resume_eq hrep hwait]
    simp

/-- C3 witness: with a question outstanding for S1, a reconnect of S1
unblocks the pending ask with the broken sentinel and clears the flag. -/
theorem c3_witness :
    ((ask_question_start (register emptyBroker "S1") "S1" demoQuestion).2.waiting "S1" = some true) ∧
    (((get (ask_question_start (register emptyBroker "S1") "S1" demoQuestion).2 "S1" []).bind
      (fun st' => ask_question_resume st' "S1")).map (fun p => (p.1, p.2.waiting "S1")) =
      some (Answer.brokenException, some false)) :=
  ⟨rfl, c3_theorem (ask_question_start (register emptyBroker "S1") "S1" demoQuestion).2 "S1" [] rfl rfl⟩

/-- C1 counterexample: the hook result list sub1-false, sub2-true has a
pair whose result is true, yet the new session for S1 ends with its queue
holding only the keepalive element: the warning and clear-sale events,
which are dicts and not the keepalive string, were not pushed, because
line 137 tests only the first pair. -/
theorem c1_counterexample :
    (([("sub1", false), ("sub2", true)] : List (String × Bool)).any (fun p => p.2) = true) ∧
    ((get emptyBroker "S1" [("sub1", false), ("sub2", true)]).map (fun st' => st'.streams "S1") =
      some (some [keepaliveItem])) ∧
    (keepaliveItem ≠ tefWarningEvent) ∧
    (keepaliveItem ≠ clearSaleEvent) := by
  refine ⟨rfl, rfl, ?_, ?_⟩ <;>
    (intro h; simp [keepaliveItem, tefWarningEvent, clearSaleEvent] at h)

/-- C1 (amended): for every newly established stream session, if the
pending-transaction hook returns a non-empty list whose FIRST pair has
result true, the session pushes the warning event and then the clear-sale
event, in that order, onto the queue of the station after the keepalive;
otherwise, even when a later pair has result true, neither event is
pushed. -/
theorem c1_theorem (st : BrokerState) (sid : StationId) (hk : List (String × Bool))
    (hok : (get st sid hk).isSome = true) :
    (get st sid hk).map (fun st' => st'.streams sid) =
      some (some (keepaliveItem ::
        (if firstResultTrue hk then [tefWarningEvent, clearSaleEvent] else []))) := by
  rcases hg : get st sid hk with _ | st'
  · rw [hg] at hok
    cases hok
  · simp [get_streams hg]

/-- C1 witness: a hook list whose first pair has result true makes the new
session push the warning and clear-sale events after the keepalive. -/
theorem c1_witness :
    ((get emptyBroker "S1" [("sub1", true)]).isSome = true) ∧
    ((get emptyBroker "S1" [("sub1", true)]).map (fun st' => st'.streams "S1") =
      some (some (keepaliveItem ::
        (if firstResultTrue [("sub1", true)] then [tefWarningEvent, clearSaleEvent] else [])))) :=
  ⟨rfl, c1_theorem emptyBroker "S1" [("sub1", true)] rfl⟩

/-- C2 counterexample: for a fresh session of S1 with nothing pending, the
full frame list of the serving loop is one frame whose json payload is the
quoted string of an open and a close brace, because line 132 enqueues the
already-serialised keepalive string and line 111 serialises it again; the
frame differs from the frame the claim requires, whose json would be the
bare empty object. -/
theorem c2_counterexample :
    ((get emptyBroker "S1" []).map (fun st' => (st'.streams "S1").map loopFrames) =
      some (some ["data: \"\x7b\x7d\"\n\n"])) ∧
    ("data: \"\x7b\x7d\"\n\n" ≠ "data: \x7b\x7d\n\n") := by
  exact ⟨rfl, by decide⟩

/-- C2 (amended): every frame the serving loop emits is the text
data-colon-space, then the json serialisation of the element taken from
the queue, then two newlines; the first element of the queue of a new
session is the keepalive, which is the pre-serialised two-brace string, so
the json payload of the first frame is that string quoted, not the bare
empty object. -/
theorem c2_theorem (st : BrokerState) (sid : StationId) (hk : List (String × Bool))
    (hok : (get st sid hk).isSome = true) :
    (∀ d rest, loopStep (d :: rest) = some ("data: " ++ jsonDumps d ++ "\n\n", rest)) ∧
    ((get st sid hk).map (fun st' => (st'.streams sid).map List.head?) =
      some (some (some keepaliveItem))) ∧
    (frame keepaliveItem = "data: \"\x7b\x7d\"\n\n") := by
  refine ⟨fun d rest => rfl, ?_, rfl⟩
  rcases hg : get st sid hk with _ | st'
  · rw [hg] at hok
    cases hok
  · simp [get_streams hg]

/-- C2 witness: on a fresh session of S1 the first queued element is the
keepalive and its frame serialises as stated. -/
theorem c2_witness :
    ((get emptyBroker "S1" []).isSome = true) ∧
    ((∀ d rest, loopStep (d :: rest) = some ("data: " ++ jsonDumps d ++ "\n\n", rest)) ∧
    ((get emptyBroker "S1" []).map (fun st' => (st'.streams "S1").map List.head?) =
      some (some (some keepaliveItem))) ∧
    (frame keepaliveItem = "data: \"\x7b\x7d\"\n\n")) :=
  ⟨rfl, c2_theorem emptyBroker "S1" [] rfl⟩
